import Mathlib

/-!
Verification development for the aws4-cli repository (a CLI front end that
signs HTTP requests with AWS Signature Version 4 via the external aws4 and
AWS-SDK credential-provider libraries).

The definitions below are a shallow embedding of the JavaScript sources:

* `AWS4` models `src/src/index.js` (the current revision): the argument
  parser (`AWS4.parse`), URL field extraction (`AWS4.parseUrl`,
  `AWS4.extractServiceFromHost`, `AWS4.extractRegionFromHost`), the request
  builder (`AWS4.buildRequestOptions`), credential resolution
  (`AWS4.resolveCredentials`), the output formatters and the pipeline
  (`AWS4.run`, `AWS4.main`).
* `OldRev` models the pieces of `src/index.js` (the older revision) that the
  claims compare against: `OldRev.extractServiceFromHost` and the
  credential gate in its `sign` method (`OldRev.signGate`).

External collaborators are modelled as explicit inputs: the WHATWG URL
parser as an `Option ParsedUrl` (none = the `new URL(...)` constructor
threw), the AWS SDK credential-provider chain as an `Except String
Credentials` value, and `aws4.sign` as a function parameter
`RequestOptions → Credentials → Except String SignedOptions`.  Process
state that the code reads or mutates (environment variables, `process.argv`)
is passed explicitly.  JavaScript `undefined` is `Option.none`, and string
truthiness ("" and `undefined` are falsy) is `jsTruthy`.
-/

/-- JavaScript truthiness for a possibly-undefined string: `undefined` and
the empty string are falsy. -/
def jsTruthy : Option String → Bool
  | none => false
  | some s => !(s == "")

/-- Rendering of a possibly-undefined string inside a template literal:
`undefined` renders as the text "undefined". -/
def renderJsOpt : Option String → String
  | none => "undefined"
  | some s => s

/-- The JavaScript expression `a || d` for a possibly-undefined string `a`
and a string default `d`. -/
def jsOrStr (a : Option String) (d : String) : String :=
  if jsTruthy a then a.getD "" else d

/-- JavaScript object property assignment on an insertion-ordered key/value
list: an existing key keeps its position and gets the new value, a new key
is appended. -/
def setKey (hs : List (String × String)) (k v : String) : List (String × String) :=
  if hs.any (fun p => p.1 == k) then
    hs.map (fun p => if p.1 == k then (k, v) else p)
  else
    hs ++ [(k, v)]

/-- JavaScript `String.prototype.includes`: substring containment. -/
def strIncludes (s sub : String) : Bool :=
  s.toList.tails.any (fun t => sub.toList.isPrefixOf t)

/-- JavaScript `String.prototype.startsWith`. -/
def strStartsWith (s p : String) : Bool :=
  p.toList.isPrefixOf s.toList

/-- JavaScript `String.prototype.trim`. -/
def jsTrim (s : String) : String :=
  String.mk (((s.toList.dropWhile Char.isWhitespace).reverse.dropWhile Char.isWhitespace).reverse)

/-- JavaScript `String.prototype.split('.')`: split at every dot, keeping
empty pieces. -/
def splitDotAux : List Char → List Char → List String
  | [], acc => [String.mk acc.reverse]
  | c :: cs, acc =>
    if c == '.' then String.mk acc.reverse :: splitDotAux cs []
    else splitDotAux cs (c :: acc)

/-- JavaScript `hostname.split('.')`. -/
def splitDot (s : String) : List String :=
  splitDotAux s.toList []

/-- Split a header string at its first colon (JavaScript `indexOf(':')`),
trimming name and value; `none` when there is no colon. -/
def splitAtColon (s : String) : Option (String × String) :=
  match s.toList.findIdx? (fun c => c == ':') with
  | none => none
  | some i =>
      some (jsTrim (String.mk (s.toList.take i)), jsTrim (String.mk (s.toList.drop (i + 1))))

/-- Numeric value of a decimal digit list (most significant first). -/
def decDigitsVal (cs : List Char) : Nat :=
  cs.foldl (fun a c => a * 10 + (c.toNat - 48)) 0

/-- Is this character a hexadecimal digit? -/
def isHexDigit (c : Char) : Bool :=
  c.isDigit || ('a' ≤ c && c ≤ 'f') || ('A' ≤ c && c ≤ 'F')

/-- Numeric value of a hexadecimal digit character. -/
def hexDigitVal (c : Char) : Nat :=
  if c.isDigit then c.toNat - 48
  else if 'a' ≤ c && c ≤ 'f' then c.toNat - 97 + 10
  else c.toNat - 65 + 10

/-- Numeric value of a hexadecimal digit list (most significant first). -/
def hexDigitsVal (cs : List Char) : Nat :=
  cs.foldl (fun a c => a * 16 + hexDigitVal c) 0

/-- JavaScript `parseInt` with no radix argument, on a possibly-undefined
string (`parseInt(undefined)` stringifies to "undefined" and yields NaN,
modelled as `none`): skip leading whitespace, read an optional sign, then
either a `0x`/`0X` hexadecimal prefix followed by hex digits or a longest
decimal-digit prefix; no digits means NaN (`none`). -/
def jsParseInt : Option String → Option Int
  | none => none
  | some s =>
    let cs := s.toList.dropWhile (fun c => c.isWhitespace)
    let signed : Int × List Char :=
      match cs with
      | '-' :: r => (-1, r)
      | '+' :: r => (1, r)
      | r => (1, r)
    match signed.2 with
    | '0' :: x :: r =>
      if x == 'x' || x == 'X' then
        let ds := r.takeWhile isHexDigit
        if ds.isEmpty then none else some (signed.1 * (hexDigitsVal ds : Int))
      else
        some (signed.1 * (decDigitsVal (('0' :: x :: r).takeWhile Char.isDigit) : Int))
    | rest =>
      let ds := rest.takeWhile Char.isDigit
      if ds.isEmpty then none else some (signed.1 * (decDigitsVal ds : Int))

/-- The relevant process environment variables (`none` = unset). -/
structure Env where
  awsRegion : Option String
  awsAccessKeyId : Option String
  awsSecretAccessKey : Option String
  awsSessionToken : Option String
  awsProfile : Option String
deriving DecidableEq, Repr

/-- An environment with every variable unset. -/
def envAllNone : Env :=
  { awsRegion := none, awsAccessKeyId := none, awsSecretAccessKey := none
    awsSessionToken := none, awsProfile := none }

/-- The CLI options object (`DEFAULT_OPTIONS` shape in `src/src/index.js`).
String-valued fields are `Option String` because flag values taken past the
end of the argument list are `undefined`. -/
structure Options where
  method : Option String
  headers : List (String × String)
  region : Option String
  accessKeyId : Option String
  secretAccessKey : Option String
  sessionToken : Option String
  profile : Option String
  expires : Int
  signQuery : Bool
  output : Option String
  verbose : Bool
  body : Option String
  service : Option String
deriving DecidableEq, Repr

/-- `DEFAULT_OPTIONS` of `src/src/index.js`: environment-variable defaults,
expires 3600, output format "url". -/
def defaultOptions (env : Env) : Options :=
  { method := some "GET"
    headers := []
    region := env.awsRegion
    accessKeyId := env.awsAccessKeyId
    secretAccessKey := env.awsSecretAccessKey
    sessionToken := env.awsSessionToken
    profile := env.awsProfile
    expires := 3600
    signQuery := false
    output := some "url"
    verbose := false
    body := none
    service := none }

/-- How an invocation terminates without printing a signed result: the
`--help` exit, a `process.exit(1)` with a message on stderr, or a thrown
`Error` (caught by `main`, which prints it and exits 1). -/
inductive ExitKind where
  | helpExit : ExitKind
  | exitErr : String → ExitKind
  | thrown : String → ExitKind
deriving DecidableEq, Repr

namespace AWS4

/-- Does this argument consume the following argument as its value? -/
def isValueOpt (arg : String) : Bool :=
  arg == "-X" || arg == "--method" || arg == "-H" || arg == "--header" ||
  arg == "-d" || arg == "--data" || arg == "-s" || arg == "--service" ||
  arg == "-r" || arg == "--region" || arg == "--access-key" ||
  arg == "--secret-key" || arg == "--session-token" || arg == "--profile" ||
  arg == "--expires" || arg == "--output"

/-- One value-consuming case of the `switch` in `ArgumentParser.parse`
(`src/src/index.js` lines 130-188); `v = none` models reading past the end
of the argument list (`undefined`). -/
def applyValueOpt (o : Options) (arg : String) (v : Option String) : Except ExitKind Options :=
  match arg with
  | "-X" | "--method" => .ok { o with method := v }
  | "-H" | "--header" =>
    (match v with
     | none => .error (.thrown "Cannot read properties of undefined")
     | some s =>
       match splitAtColon s with
       | none =>
         .error (.exitErr ("Invalid header format: " ++ s ++ ". Expected format: \"Name: Value\""))
       | some (k, val) => .ok { o with headers := setKey o.headers k val })
  | "-d" | "--data" => .ok { o with body := v }
  | "-s" | "--service" => .ok { o with service := v }
  | "-r" | "--region" => .ok { o with region := v }
  | "--access-key" => .ok { o with accessKeyId := v }
  | "--secret-key" => .ok { o with secretAccessKey := v }
  | "--session-token" => .ok { o with sessionToken := v }
  | "--profile" => .ok { o with profile := v }
  | "--expires" =>
    (match jsParseInt v with
     | none => .error (.thrown "--expires must be a number between 1 and 604800 (7 days)")
     | some n =>
       if n < 1 || n > 604800 then
         .error (.thrown "--expires must be a number between 1 and 604800 (7 days)")
       else .ok { o with expires := n })
  | "--output" =>
    if v == some "url" || v == some "curl" || v == some "headers" then
      .ok { o with output := v }
    else .error (.thrown "--output must be one of: url, curl, headers")
  | _ => .ok o

/-- The non-value cases of the `switch`: boolean flags, unknown options, and
the positional URL (with the multiple-URL check). -/
def applySimple (o : Options) (u : Option String) (arg : String) :
    Except ExitKind (Options × Option String) :=
  match arg with
  | "--sign-query" => .ok ({ o with signQuery := true }, u)
  | "-v" | "--verbose" => .ok ({ o with verbose := true }, u)
  | _ =>
    if strStartsWith arg "-" then .error (.thrown ("Unknown option: " ++ arg))
    else if jsTruthy u then .error (.thrown "Multiple URLs provided. Only one URL is allowed.")
    else .ok (o, some arg)

/-- The final URL-required check after the argument loop
(`src/src/index.js` lines 208-214). -/
def finish (o : Options) (u : Option String) : Except ExitKind (Options × String) :=
  if jsTruthy u then .ok (o, u.getD "") else .error (.exitErr "Error: URL is required")

/-- The argument loop of `ArgumentParser.parse`: value-consuming options take
the next argument (`undefined` past the end, after which the loop ends),
`-h`/`--help` exits, everything else goes through `applySimple`. -/
def parseLoop (o : Options) (u : Option String) : List String → Except ExitKind (Options × String)
  | [] => finish o u
  | arg :: rest =>
    if arg == "-h" || arg == "--help" then .error .helpExit
    else if isValueOpt arg then
      match rest with
      | [] =>
        match applyValueOpt o arg none with
        | .error e => .error e
        | .ok o' => finish o' u
      | v :: rest' =>
        match applyValueOpt o arg (some v) with
        | .error e => .error e
        | .ok o' => parseLoop o' u rest'
    else
      match applySimple o u arg with
      | .error e => .error e
      | .ok (o', u') => parseLoop o' u' rest

/-- `ArgumentParser.parse` on the command-line arguments (after the node and
script entries of `process.argv`), starting from `DEFAULT_OPTIONS`. -/
def parse (env : Env) (args : List String) : Except ExitKind (Options × String) :=
  parseLoop (defaultOptions env) none args

end AWS4

/-- The outcome of the external WHATWG URL parser (`new URL(url)`): host,
path, query pairs (the `searchParams` view of the search string) and
protocol.  A `none` at a use site models the constructor throwing. -/
structure ParsedUrl where
  hostname : String
  pathname : String
  query : List (String × String)
  protocol : String
deriving DecidableEq, Repr

/-- The mutable `this.requestOptions` object handed to `aws4.sign`.  The
request path is kept structured as `pathname` plus `queryPairs` (the code
stores `url.pathname + url.search`). -/
structure RequestOptions where
  hostname : String
  pathname : String
  queryPairs : List (String × String)
  protocol : String
  service : Option String
  region : Option String
  method : Option String
  headers : List (String × String)
  body : Option String
  signQuery : Bool
deriving DecidableEq, Repr

/-- A resolved credential tuple. -/
structure Credentials where
  accessKeyId : Option String
  secretAccessKey : Option String
  sessionToken : Option String
deriving DecidableEq, Repr

/-- The object returned by the external `aws4.sign`, as consumed by the
output formatters.  Its `path` is an opaque string produced by the signer. -/
structure SignedOptions where
  hostname : Option String
  host : Option String
  path : Option String
  protocol : Option String
  method : Option String
  headers : List (String × String)
  body : Option String
deriving DecidableEq, Repr

/-- Render query pairs as `k=v` joined with ampersands. -/
def joinPairs : List (String × String) → String
  | [] => ""
  | [p] => p.1 ++ "=" ++ p.2
  | p :: q :: rest => p.1 ++ "=" ++ p.2 ++ "&" ++ joinPairs (q :: rest)

/-- Serialization of a structured request path back to a string, used when a
concrete stand-in signer echoes the request path. -/
def renderPath (ro : RequestOptions) : String :=
  ro.pathname ++
    (if ro.queryPairs.isEmpty then ""
     else "?" ++ joinPairs ro.queryPairs)

/-- A concrete stand-in for the external `aws4.sign` that never throws and
echoes the request fields back (the real aws4 library does not throw when
service or region are missing; it falls back to its own defaults). -/
def dummySigner (ro : RequestOptions) (_ : Credentials) : Except String SignedOptions :=
  .ok { hostname := some ro.hostname, host := none, path := some (renderPath ro)
        protocol := some ro.protocol, method := ro.method, headers := ro.headers
        body := ro.body }

namespace AWS4

/-- `AWS4CLI.extractServiceFromHost` of `src/src/index.js` (lines 256-266):
for `parts.length >= 3` with the second-to-last label "amazonaws" it returns
`parts[parts.length - 4]` (which is `undefined` when there are only three
labels), otherwise `null`.  Both `null` and `undefined` are `none`. -/
def extractServiceFromHost (hostname : String) : Option String :=
  let parts := splitDot hostname
  if parts.length ≥ 3 && (parts.getD (parts.length - 2) "" == "amazonaws") then
    if parts.length ≥ 4 then some (parts.getD (parts.length - 4) "") else none
  else none

/-- `AWS4CLI.extractRegionFromHost` of `src/src/index.js` (lines 268-277). -/
def extractRegionFromHost (hostname : String) : Option String :=
  let parts := splitDot hostname
  if parts.length ≥ 3 && (parts.getD (parts.length - 2) "" == "amazonaws") then
    some (parts.getD (parts.length - 3) "")
  else none

/-- The field assignments of `AWS4CLI.parseUrl` once the URL constructor has
succeeded: hostname, path, protocol, and the `options.service ||
extractServiceFromHost(...)` / `options.region || extractRegionFromHost(...)`
fallbacks. -/
def parseUrlFields (pu : ParsedUrl) (opts : Options) : RequestOptions :=
  { hostname := pu.hostname
    pathname := pu.pathname
    queryPairs := pu.query
    protocol := pu.protocol
    service := if jsTruthy opts.service then opts.service else extractServiceFromHost pu.hostname
    region := if jsTruthy opts.region then opts.region else extractRegionFromHost pu.hostname
    method := none
    headers := []
    body := none
    signQuery := false }

/-- `AWS4CLI.parseUrl` (`src/src/index.js` lines 237-254): a URL the
constructor rejects exits with "Invalid URL"; otherwise the request fields
are filled in, with no check that service or region were determined. -/
def parseUrl (purl : Option ParsedUrl) (opts : Options) : Except ExitKind RequestOptions :=
  match purl with
  | none => .error (.exitErr "Invalid URL")
  | some pu => .ok (parseUrlFields pu opts)

/-- `AWS4CLI.buildRequestOptions` (`src/src/index.js` lines 279-313): copy
method and headers; a truthy body is attached and promotes a defaulted GET
to POST unless `-X`/`--method` occurs in `process.argv`; `url` output or
`--sign-query` turns on query signing; in query-signing mode an
`X-Amz-Expires` query parameter is appended to the path unless the URL
already has one. -/
def buildRequestOptions (ro₀ : RequestOptions) (opts : Options) (argv : List String)
    (pu : ParsedUrl) : RequestOptions :=
  let ro₁ := { ro₀ with method := opts.method, headers := opts.headers }
  let ro₂ :=
    if jsTruthy opts.body then
      { ro₁ with
        body := opts.body
        method :=
          if opts.method == some "GET" && !(argv.contains "-X") && !(argv.contains "--method")
          then some "POST" else ro₁.method }
    else ro₁
  let ro₃ :=
    if opts.output == some "url" || opts.signQuery then { ro₂ with signQuery := true } else ro₂
  if ro₃.signQuery then
    if pu.query.any (fun p => p.1 == "X-Amz-Expires") then ro₃
    else { ro₃ with pathname := pu.pathname
                    queryPairs := pu.query ++ [("X-Amz-Expires", toString opts.expires)] }
  else ro₃

/-- `AWS4CLI.resolveCredentials` (`src/src/index.js` lines 315-401) with the
AWS SDK provider chain as an explicit `chain` outcome.  Explicit
command-line/environment credentials (both truthy) are used directly.
Otherwise `AWS_PROFILE` is overridden for the chain call and the code then
attempts to restore it; in the catch branch the "original" value is re-read
only after it was overwritten.  Returns the result together with the
environment after the call. -/
def resolveCredentials (opts : Options) (chain : Except String Credentials) (env : Env) :
    Except ExitKind Credentials × Env :=
  if jsTruthy opts.accessKeyId && jsTruthy opts.secretAccessKey then
    (.ok { accessKeyId := opts.accessKeyId
           secretAccessKey := opts.secretAccessKey
           sessionToken := if jsTruthy opts.sessionToken then opts.sessionToken else none },
     env)
  else
    let originalProfile := env.awsProfile
    let env₁ := if jsTruthy opts.profile then { env with awsProfile := opts.profile } else env
    match chain with
    | .ok creds =>
      let env₂ :=
        if originalProfile.isSome then { env₁ with awsProfile := originalProfile }
        else if jsTruthy opts.profile then { env₁ with awsProfile := none }
        else env₁
      (.ok { accessKeyId := creds.accessKeyId
             secretAccessKey := creds.secretAccessKey
             sessionToken := creds.sessionToken },
       env₂)
    | .error msg =>
      let reread := env₁.awsProfile
      let env₂ :=
        if reread.isSome then { env₁ with awsProfile := reread }
        else if jsTruthy opts.profile then { env₁ with awsProfile := none }
        else env₁
      (.error (.exitErr ("Error: Failed to resolve AWS credentials. Details: " ++ msg)), env₂)

/-- The `protocol//hostname path` part shared by `formatUrl` and
`formatCurl`: `signedOptions.protocol || https`, `signedOptions.hostname ||
signedOptions.host` rendered into the template, `signedOptions.path || /`. -/
def formatUrlBase (so : SignedOptions) : String :=
  jsOrStr so.protocol "https:" ++ "//" ++
    (if jsTruthy so.hostname then so.hostname.getD "" else renderJsOpt so.host) ++
    jsOrStr so.path "/"

/-- `AWS4CLI.formatUrl` (`src/src/index.js` lines 435-463): the base URL with
`&X-Amz-Security-Token=<token>` appended verbatim when `options.sessionToken`
is truthy. -/
def formatUrl (so : SignedOptions) (opts : Options) : String :=
  formatUrlBase so ++
    (if jsTruthy opts.sessionToken then
       "&X-Amz-Security-Token=" ++ opts.sessionToken.getD ""
     else "")

/-- The `curl -X <method>` prefix plus the signed-header flags emitted by
`formatCurl` before the session-token header. -/
def curlHead (so : SignedOptions) : String :=
  "curl -X " ++ (if jsTruthy so.method then so.method.getD "" else "GET") ++
    so.headers.foldl (fun acc p => acc ++ " \\\n  -H \"" ++ p.1 ++ ": " ++ p.2 ++ "\"") ""

/-- The body flag and quoted URL emitted by `formatCurl` after the
session-token header. -/
def curlTail (so : SignedOptions) : String :=
  (if jsTruthy so.body then " \\\n  -d \x27" ++ so.body.getD "" ++ "\x27" else "") ++
    " \\\n  \"" ++ formatUrlBase so ++ "\""

/-- `AWS4CLI.formatCurl` (`src/src/index.js` lines 465-491): method and
signed headers, then a literal `x-amz-security-token` header when
`options.sessionToken` is truthy, then body and URL. -/
def formatCurl (so : SignedOptions) (opts : Options) : String :=
  curlHead so ++
    (if jsTruthy opts.sessionToken then
       " \\\n  -H \"x-amz-security-token: " ++ opts.sessionToken.getD "" ++ "\""
     else "") ++
    curlTail so

/-- `AWS4CLI.formatHeaders`: the signed headers, one per line, trimmed. -/
def formatHeaders (so : SignedOptions) : String :=
  jsTrim (so.headers.foldl (fun acc p => acc ++ p.1 ++ ": " ++ p.2 ++ "\n") "")

/-- `AWS4CLI.formatOutput`: dispatch on the output format, with `url` as the
default branch of the switch. -/
def formatOutput (so : SignedOptions) (opts : Options) : String :=
  if opts.output == some "curl" then formatCurl so opts
  else if opts.output == some "headers" then formatHeaders so
  else formatUrl so opts

/-- `AWS4CLI.run` after argument parsing: parseUrl, buildRequestOptions,
resolveCredentials, the guarded `aws4.sign` call, and output formatting.
Returns the printed output (or the exit) together with the environment. -/
def run (purl : Option ParsedUrl) (opts : Options) (argv : List String)
    (chain : Except String Credentials)
    (signer : RequestOptions → Credentials → Except String SignedOptions)
    (env : Env) : Except ExitKind String × Env :=
  match purl with
  | none => (.error (.exitErr "Invalid URL"), env)
  | some pu =>
    let ro := buildRequestOptions (parseUrlFields pu opts) opts argv pu
    let rc := resolveCredentials opts chain env
    match rc.1 with
    | .error e => (.error e, rc.2)
    | .ok creds =>
      match signer ro creds with
      | .error msg => (.error (.exitErr ("Error signing request: " ++ msg)), rc.2)
      | .ok so => (.ok (formatOutput so opts), rc.2)

/-- The whole program: parse the arguments, then run the signing pipeline on
the parsed URL.  The URL parser, credential chain and signer are explicit
collaborators. -/
def main (env : Env) (args : List String) (urlOracle : String → Option ParsedUrl)
    (chain : Except String Credentials)
    (signer : RequestOptions → Credentials → Except String SignedOptions) :
    Except ExitKind String × Env :=
  match parse env args with
  | .error e => (.error e, env)
  | .ok (opts, url) => run (urlOracle url) opts args chain signer env

end AWS4

namespace OldRev

/-- `AWS4CLI.extractServiceFromHost` of the older revision `src/index.js`
(lines 203-219): hostnames containing ".s3." or ".s3-" map to "s3", the
standard `amazonaws` pattern returns the first label, and everything else
falls back to "s3". -/
def extractServiceFromHost (hostname : String) : Option String :=
  let parts := splitDot hostname
  if strIncludes hostname ".s3." || strIncludes hostname ".s3-" then some "s3"
  else if parts.length ≥ 3 && (parts.getD (parts.length - 2) "" == "amazonaws") then
    some (parts.getD 0 "")
  else some "s3"

/-- `AWS4CLI.buildRequestOptions` of the older revision `src/index.js`
(lines 248-263): identical method/headers/body handling (including the
GET-to-POST promotion with the `process.argv` check), but query signing is
only enabled by the `--sign-query` flag and no expiry parameter is added. -/
def buildRequestOptions (ro₀ : RequestOptions) (opts : Options) (argv : List String) :
    RequestOptions :=
  let ro₁ := { ro₀ with method := opts.method, headers := opts.headers }
  let ro₂ :=
    if jsTruthy opts.body then
      { ro₁ with
        body := opts.body
        method :=
          if opts.method == some "GET" && !(argv.contains "-X") && !(argv.contains "--method")
          then some "POST" else ro₁.method }
    else ro₁
  if opts.signQuery then { ro₂ with signQuery := true } else ro₂

/-- The credential gate at the top of `AWS4CLI.sign` in the older revision
(`src/index.js` lines 266-284): build the credentials object from the truthy
option fields, and exit when they are incomplete and the environment
variables are also missing or empty. -/
def signGate (opts : Options) (env : Env) : Except ExitKind Credentials :=
  let credentials : Credentials :=
    { accessKeyId := if jsTruthy opts.accessKeyId then opts.accessKeyId else none
      secretAccessKey := if jsTruthy opts.secretAccessKey then opts.secretAccessKey else none
      sessionToken := if jsTruthy opts.sessionToken then opts.sessionToken else none }
  if !jsTruthy credentials.accessKeyId || !jsTruthy credentials.secretAccessKey then
    if !jsTruthy env.awsAccessKeyId || !jsTruthy env.awsSecretAccessKey then
      .error (.exitErr "Error: AWS credentials not found.")
    else .ok credentials
  else .ok credentials

end OldRev

/-- Decidable equality for pipeline outcomes, so concrete runs can be
checked by evaluation. -/
instance {ε α : Type} [DecidableEq ε] [DecidableEq α] : DecidableEq (Except ε α) := fun a b =>
  match a, b with
  | .ok x, .ok y =>
    if h : x = y then .isTrue (by rw [h]) else .isFalse (by simp [h])
  | .error x, .error y =>
    if h : x = y then .isTrue (by rw [h]) else .isFalse (by simp [h])
  | .ok _, .error _ => .isFalse (by simp)
  | .error _, .ok _ => .isFalse (by simp)

/-! Concrete fixtures used by counterexamples and witnesses. -/

/-- The parse of `https://example.com/`: a hostname from which neither a
service nor a region can be extracted. -/
def examplePu : ParsedUrl :=
  { hostname := "example.com", pathname := "/", query := [], protocol := "https:" }

/-- The parse of `https://sqs.us-east-1.amazonaws.com/`. -/
def sqsPu : ParsedUrl :=
  { hostname := "sqs.us-east-1.amazonaws.com", pathname := "/", query := [], protocol := "https:" }

/-- Default options with explicit command-line credentials. -/
def optsExplicitCreds : Options :=
  { defaultOptions envAllNone with accessKeyId := some "AKIA", secretAccessKey := some "SECRET" }

/-- Explicit credentials, a non-empty request body, and curl output. -/
def optsBodyCurl : Options :=
  { optsExplicitCreds with body := some "x", output := some "curl" }

/-- Default options with only a profile set (no explicit credentials). -/
def optsProfile : Options :=
  { defaultOptions envAllNone with profile := some "my-profile" }

/-- A credential tuple as returned by a successful provider chain. -/
def chainCreds : Credentials :=
  { accessKeyId := some "AKIACHAIN", secretAccessKey := some "CHAINSECRET", sessionToken := none }

/-! Claim theorems. -/

/-- Claim C2 counterexample: for `https://example.com/` with no explicit
service or region flags, `extractServiceFromHost` and `extractRegionFromHost`
both yield nothing, yet `parseUrl` records `null` service and region without
error and the pipeline proceeds to invoke the (non-throwing) signer and emits
a signed URL — contradicting the claim that signing fails with no output
whenever service or region cannot be determined. -/
theorem service_region_failure_counterexample :
    (AWS4.parseUrlFields examplePu optsExplicitCreds).service = none
  ∧ (AWS4.parseUrlFields examplePu optsExplicitCreds).region = none
  ∧ (AWS4.run (some examplePu) optsExplicitCreds [] (.error "no providers") dummySigner
        envAllNone).1
      = .ok "https://example.com/?X-Amz-Expires=3600" := by
  refine ⟨by decide, by decide, by decide⟩

/-- Claim C2 (amended): the CLI performs no check that service or region were
determined — `parseUrl` succeeds exactly when the URL itself parses, leaving
undetermined service/region as `null` for the external signer to default. -/
theorem parse_url_no_service_check :
    ∀ (purl : Option ParsedUrl) (opts : Options),
      (AWS4.parseUrl purl opts).isOk = purl.isSome := by
  intro purl opts
  cases purl <;> rfl

/-- Claim C8: the success path of `resolveCredentials` restores `AWS_PROFILE`
(here: back to unset), but on provider-chain failure the catch block re-reads
`AWS_PROFILE` only after it was overwritten with the `--profile` value, so
the "restore" writes the overridden value back and the variable stays set to
the profile option instead of its original (unset) value. -/
theorem profile_restore_divergence :
    envAllNone.awsProfile = none
  ∧ (AWS4.resolveCredentials optsProfile (.ok chainCreds) envAllNone).2.awsProfile = none
  ∧ (AWS4.resolveCredentials optsProfile (.error "No credentials found")
        envAllNone).2.awsProfile = some "my-profile" := by
  refine ⟨rfl, by decide, by decide⟩

/-- Claim C9 counterexample: on `s3.amazonaws.com` the old revision of
`extractServiceFromHost` returns "s3" while the new revision returns
nothing (it indexes `parts[parts.length - 4]`, which does not exist for a
three-label hostname), so the two revisions are not equivalent. -/
theorem service_extraction_equivalence_counterexample :
    OldRev.extractServiceFromHost "s3.amazonaws.com" = some "s3"
  ∧ AWS4.extractServiceFromHost "s3.amazonaws.com" = none
  ∧ OldRev.extractServiceFromHost "s3.amazonaws.com"
      ≠ AWS4.extractServiceFromHost "s3.amazonaws.com" := by
  refine ⟨by decide, by decide, by decide⟩

/-- Claim C9 (amended): the two revisions are not equivalent (the
counterexample), but they do agree on every four-label hostname whose third
label is "amazonaws" and which contains neither ".s3." nor ".s3-": both
return the first label there.  This agreement set is sufficient, not exact:
the revisions also coincide elsewhere, for instance both return "s3" on
`bucket.s3.us-east-1.amazonaws.com` (the old revision via its S3 special
case, the new one as `parts[parts.length - 4]`). -/
theorem service_extraction_agreement :
    (∀ (h : String),
      (splitDot h).length = 4 →
      (splitDot h).getD 2 "" = "amazonaws" →
      strIncludes h ".s3." = false →
      strIncludes h ".s3-" = false →
      OldRev.extractServiceFromHost h = AWS4.extractServiceFromHost h)
  ∧ OldRev.extractServiceFromHost "bucket.s3.us-east-1.amazonaws.com" = some "s3"
  ∧ AWS4.extractServiceFromHost "bucket.s3.us-east-1.amazonaws.com" = some "s3" := by
  refine ⟨?_, by decide, by decide⟩
  intro h hlen hamz hs3 hs3d
  unfold OldRev.extractServiceFromHost AWS4.extractServiceFromHost
  simp only [hs3, hs3d, hlen, hamz, Bool.false_or, Bool.or_self, Bool.false_eq_true, if_false]
  norm_num

/-- Claim C9 witness: a standard DynamoDB hostname on which both revisions
agree. -/
theorem service_extraction_agreement_witness :
    OldRev.extractServiceFromHost "dynamodb.us-east-1.amazonaws.com"
      = AWS4.extractServiceFromHost "dynamodb.us-east-1.amazonaws.com" :=
  service_extraction_agreement.1 "dynamodb.us-east-1.amazonaws.com"
    (by decide) (by decide) (by decide) (by decide)

/-- Claim C10: in both revisions, `buildRequestOptions` sets the request
method to POST exactly when a (truthy) body is supplied, the method option is
the defaulted "GET", and neither `-X` nor `--method` occurs in the argument
vector; in every other case the request method is the method option
unchanged. -/
theorem body_post_promotion :
    (∀ (pu : ParsedUrl) (opts : Options) (argv : List String),
      (AWS4.buildRequestOptions (AWS4.parseUrlFields pu opts) opts argv pu).method
        = (if jsTruthy opts.body && (opts.method == some "GET")
              && !(argv.contains "-X") && !(argv.contains "--method")
           then some "POST" else opts.method))
  ∧ (∀ (ro₀ : RequestOptions) (opts : Options) (argv : List String),
      (OldRev.buildRequestOptions ro₀ opts argv).method
        = (if jsTruthy opts.body && (opts.method == some "GET")
              && !(argv.contains "-X") && !(argv.contains "--method")
           then some "POST" else opts.method)) := by
  constructor
  · intro pu opts argv
    unfold AWS4.buildRequestOptions
    cases hb : jsTruthy opts.body <;>
      cases hm : (opts.method == some "GET") <;>
        cases hx : argv.contains "-X" <;>
          cases hmm : argv.contains "--method" <;>
            simp [hb, hm, hx, hmm] <;> (repeat' split) <;> rfl
  · intro ro₀ opts argv
    unfold OldRev.buildRequestOptions
    cases hb : jsTruthy opts.body <;>
      cases hm : (opts.method == some "GET") <;>
        cases hx : argv.contains "-X" <;>
          cases hmm : argv.contains "--method" <;>
            simp [hb, hm, hx, hmm] <;> (repeat' split) <;> rfl

/-- The parse of a URL that already carries an `X-Amz-Expires` query
parameter. -/
def expiresPu : ParsedUrl :=
  { hostname := "h.s3.amazonaws.com", pathname := "/o"
    query := [("X-Amz-Expires", "99"), ("a", "b")], protocol := "https:" }

/-- Uppercasing a string character by character (what the spec means by an
"uppercased" method). -/
def jsToUpper (s : String) : String :=
  String.mk (s.toList.map Char.toUpper)

/-- Claim C4: in query-signing mode (`url` output or `--sign-query`),
`buildRequestOptions` turns on query signing and places `X-Amz-Expires` into
the request path before the signer sees it: when the URL has no
`X-Amz-Expires` parameter one is appended carrying the expires option value,
and when the URL already has one the path (and hence the existing value) is
left untouched. -/
theorem presign_expires_placement :
    ∀ (pu : ParsedUrl) (opts : Options) (argv : List String),
      opts.output = some "url" ∨ opts.signQuery = true →
      (AWS4.buildRequestOptions (AWS4.parseUrlFields pu opts) opts argv pu).signQuery = true
      ∧ ((pu.query.any fun p => p.1 == "X-Amz-Expires") = false →
          (AWS4.buildRequestOptions (AWS4.parseUrlFields pu opts) opts argv pu).queryPairs
              = pu.query ++ [("X-Amz-Expires", toString opts.expires)]
          ∧ (AWS4.buildRequestOptions (AWS4.parseUrlFields pu opts) opts argv pu).pathname
              = pu.pathname)
      ∧ ((pu.query.any fun p => p.1 == "X-Amz-Expires") = true →
          (AWS4.buildRequestOptions (AWS4.parseUrlFields pu opts) opts argv pu).queryPairs
              = pu.query
          ∧ (AWS4.buildRequestOptions (AWS4.parseUrlFields pu opts) opts argv pu).pathname
              = pu.pathname) := by
  intro pu opts argv h
  have hc : (opts.output == some "url" || opts.signQuery) = true := by
    rcases h with h | h <;> simp [h]
  unfold AWS4.buildRequestOptions
  cases hb : jsTruthy opts.body <;>
    cases hq : pu.query.any (fun p => p.1 == "X-Amz-Expires") <;>
      simp [hb, hc, hq, AWS4.parseUrlFields]

/-- Claim C4 witness: with `url` output, an expiry-free SQS URL gets
`X-Amz-Expires=3600` appended, while a URL already carrying
`X-Amz-Expires=99` keeps its query untouched. -/
theorem presign_expires_placement_witness :
    (AWS4.buildRequestOptions (AWS4.parseUrlFields sqsPu optsExplicitCreds)
        optsExplicitCreds [] sqsPu).queryPairs
      = sqsPu.query ++ [("X-Amz-Expires", toString optsExplicitCreds.expires)]
  ∧ (AWS4.buildRequestOptions (AWS4.parseUrlFields expiresPu optsExplicitCreds)
        optsExplicitCreds [] expiresPu).queryPairs
      = expiresPu.query :=
  ⟨((presign_expires_placement sqsPu optsExplicitCreds [] (Or.inl rfl)).2.1 (by decide)).1,
   ((presign_expires_placement expiresPu optsExplicitCreds [] (Or.inl rfl)).2.2 (by decide)).1⟩

/-- Claim C5: with a (non-empty) session token in the options, `url` output
appends `&X-Amz-Security-Token=<token>` as an unsigned trailing query
parameter after the signed path, and `curl` output includes a literal
`x-amz-security-token` header carrying the token value. -/
theorem session_token_emission :
    ∀ (so : SignedOptions) (opts : Options) (t : String),
      opts.sessionToken = some t → t ≠ "" →
      (opts.output = some "url" →
        AWS4.formatOutput so opts
          = AWS4.formatUrlBase so ++ "&X-Amz-Security-Token=" ++ t)
      ∧ (opts.output = some "curl" →
        AWS4.formatOutput so opts
          = AWS4.curlHead so ++ " \\\n  -H \"x-amz-security-token: " ++ t ++ "\""
              ++ AWS4.curlTail so) := by
  intro so opts t ht hne
  have htr : jsTruthy (some t) = true := by simp [jsTruthy, hne]
  constructor
  · intro ho
    simp [AWS4.formatOutput, ho, AWS4.formatUrl, htr, ht, String.append_assoc]
  · intro ho
    simp [AWS4.formatOutput, ho, AWS4.formatCurl, htr, ht, String.append_assoc]

/-- A signed-options fixture with one signed header. -/
def soFixture : SignedOptions :=
  { hostname := some "h", host := none, path := some "/p?x=1", protocol := some "https:"
    method := some "GET", headers := [("Authorization", "sig")], body := none }

/-- Options carrying a session token, in `url` output mode. -/
def optsTokenUrl : Options :=
  { defaultOptions envAllNone with sessionToken := some "TOK" }

/-- Options carrying a session token, in `curl` output mode. -/
def optsTokenCurl : Options :=
  { optsTokenUrl with output := some "curl" }

/-- Claim C5 witness: the two formatting equations at a concrete signed
request and token. -/
theorem session_token_emission_witness :
    AWS4.formatOutput soFixture optsTokenUrl
      = AWS4.formatUrlBase soFixture ++ "&X-Amz-Security-Token=" ++ "TOK"
  ∧ AWS4.formatOutput soFixture optsTokenCurl
      = AWS4.curlHead soFixture ++ " \\\n  -H \"x-amz-security-token: " ++ "TOK" ++ "\""
          ++ AWS4.curlTail soFixture :=
  ⟨(session_token_emission soFixture optsTokenUrl "TOK" rfl (by decide)).1 rfl,
   (session_token_emission soFixture optsTokenCurl "TOK" rfl (by decide)).2 rfl⟩

/-- The first component of `resolveCredentials` does not depend on the
environment (the environment only receives the profile save/restore
writes). -/
theorem resolveCredentials_fst_env (opts : Options) (chain : Except String Credentials)
    (e₁ e₂ : Env) :
    (AWS4.resolveCredentials opts chain e₁).1 = (AWS4.resolveCredentials opts chain e₂).1 := by
  unfold AWS4.resolveCredentials
  split
  · rfl
  · cases chain <;> rfl

/-- Claim C6 counterexample: with the URL, the options object, the credential
source, the signer and the (irrelevant) timestamp all fixed, two pipeline
runs that differ only in the process argument vector produce different
bytes: `buildRequestOptions` reads `process.argv` to decide the GET-to-POST
promotion, so the output is not a function of (request, credentials, mode)
alone. -/
theorem signing_determinism_counterexample :
    (AWS4.run (some sqsPu) optsBodyCurl ["-d", "x", "https://sqs.us-east-1.amazonaws.com/"]
        (.error "no providers") dummySigner envAllNone).1
      ≠ (AWS4.run (some sqsPu) optsBodyCurl
            ["-X", "GET", "-d", "x", "https://sqs.us-east-1.amazonaws.com/"]
            (.error "no providers") dummySigner envAllNone).1 := by
  decide

/-- Claim C6 (amended): the pipeline output is a deterministic function of
the URL, the options, the argument vector, the credential-chain outcome and
the signer: it does not depend on the environment, and running the pipeline
again in the state left by a first run yields byte-identical output. -/
theorem signing_determinism :
    (∀ (purl : Option ParsedUrl) (opts : Options) (argv : List String)
        (chain : Except String Credentials)
        (signer : RequestOptions → Credentials → Except String SignedOptions)
        (env₁ env₂ : Env),
      (AWS4.run purl opts argv chain signer env₁).1
        = (AWS4.run purl opts argv chain signer env₂).1)
  ∧ (∀ (purl : Option ParsedUrl) (opts : Options) (argv : List String)
        (chain : Except String Credentials)
        (signer : RequestOptions → Credentials → Except String SignedOptions)
        (env : Env),
      (AWS4.run purl opts argv chain signer
          ((AWS4.run purl opts argv chain signer env).2)).1
        = (AWS4.run purl opts argv chain signer env).1) := by
  have base : ∀ (purl : Option ParsedUrl) (opts : Options) (argv : List String)
      (chain : Except String Credentials)
      (signer : RequestOptions → Credentials → Except String SignedOptions)
      (env₁ env₂ : Env),
      (AWS4.run purl opts argv chain signer env₁).1
        = (AWS4.run purl opts argv chain signer env₂).1 := by
    intro purl opts argv chain signer env₁ env₂
    cases purl with
    | none => rfl
    | some pu =>
      simp only [AWS4.run]
      rw [resolveCredentials_fst_env opts chain env₁ env₂]
      rcases hr : (AWS4.resolveCredentials opts chain env₂).1 with e | creds
      · simp [hr]
      · rcases hs : signer (AWS4.buildRequestOptions (AWS4.parseUrlFields pu opts) opts argv pu)
            creds with msg | so <;> simp [hr, hs]
  exact ⟨base, fun purl opts argv chain signer env =>
    base purl opts argv chain signer _ env⟩

/-- Claim C7 counterexample: the method string supplied via `-X` is neither
validated nor uppercased: `-X get` is parsed verbatim and the request is
built with method "get", not "GET". -/
theorem method_uppercase_counterexample :
    AWS4.parse envAllNone ["-X", "get", "https://example.com/"]
      = .ok ({ defaultOptions envAllNone with method := some "get" }, "https://example.com/")
  ∧ (AWS4.buildRequestOptions
        (AWS4.parseUrlFields examplePu { defaultOptions envAllNone with method := some "get" })
        { defaultOptions envAllNone with method := some "get" }
        ["-X", "get", "https://example.com/"] examplePu).method = some "get"
  ∧ some "get" ≠ some (jsToUpper "get") := by
  refine ⟨by decide, by decide, by decide⟩

/-- Claim C7 (amended): the method string supplied via `-X`/`--method` is
stored and used verbatim, with no case normalization: parsing records it
unchanged, and when a method flag occurs in the argument vector the built
request method is exactly the supplied string. -/
theorem method_passthrough :
    (∀ (env : Env) (m : String),
      AWS4.parse env ["-X", m, "https://example.com/"]
        = .ok ({ defaultOptions env with method := some m }, "https://example.com/"))
  ∧ (∀ (pu : ParsedUrl) (opts : Options) (argv : List String) (m : String),
      opts.method = some m → argv.contains "-X" = true →
      (AWS4.buildRequestOptions (AWS4.parseUrlFields pu opts) opts argv pu).method
        = some m) := by
  constructor
  · intro env m
    rfl
  · intro pu opts argv m hm hx
    have hmem : "-X" ∈ argv := by simpa using hx
    have hcond : (opts.method == some "GET" && !(argv.contains "-X")
        && !(argv.contains "--method")) = false := by
      simp [hmem]
    unfold AWS4.buildRequestOptions
    simp only [hcond]
    cases hb : jsTruthy opts.body <;>
      simp [hb, hm] <;> (repeat' split) <;> rfl

/-- Claim C7 witness: the amended theorem at the concrete method string
"get". -/
theorem method_passthrough_witness :
    AWS4.parse envAllNone ["-X", "get", "https://example.com/"]
      = .ok ({ defaultOptions envAllNone with method := some "get" }, "https://example.com/")
  ∧ (AWS4.buildRequestOptions
        (AWS4.parseUrlFields examplePu { defaultOptions envAllNone with method := some "get" })
        { defaultOptions envAllNone with method := some "get" }
        ["-X", "get", "https://example.com/"] examplePu).method = some "get" :=
  ⟨method_passthrough.1 envAllNone "get",
   method_passthrough.2 examplePu { defaultOptions envAllNone with method := some "get" }
     ["-X", "get", "https://example.com/"] "get" rfl (by decide)⟩

/-! Argument-parser lemmas for the expires bound. -/

/-- A successful `finish` returns the options unchanged. -/
theorem finish_fst {o : Options} {u : Option String} {r : Options × String}
    (h : AWS4.finish o u = .ok r) : r.1 = o := by
  unfold AWS4.finish at h
  split at h
  · cases h; rfl
  · cases h

/-- Every value-consuming option either faults or leaves the expires field
inside [1, 604800] when it was there before (the `--expires` case stores
only range-checked values; every other case keeps the field). -/
theorem applyValueOpt_expires {o o' : Options} {arg : String} {v : Option String}
    (h : AWS4.applyValueOpt o arg v = .ok o')
    (h1 : 1 ≤ o.expires) (h2 : o.expires ≤ 604800) :
    1 ≤ o'.expires ∧ o'.expires ≤ 604800 := by
  unfold AWS4.applyValueOpt at h
  repeat' split at h
  all_goals cases h
  all_goals try exact ⟨h1, h2⟩
  all_goals constructor <;> simp_all

/-- The non-value cases never touch the expires field. -/
theorem applySimple_expires {o o' : Options} {u u' : Option String} {arg : String}
    (h : AWS4.applySimple o u arg = .ok (o', u')) : o'.expires = o.expires := by
  unfold AWS4.applySimple at h
  repeat' split at h
  all_goals cases h
  all_goals rfl

/-- Loop invariant: if the expires option starts in [1, 604800], any
successful parse ends with it in [1, 604800]. -/
theorem parseLoop_expires_inv :
    ∀ (n : ℕ) (args : List String), args.length ≤ n →
      ∀ (o : Options) (u : Option String) (r : Options × String),
        AWS4.parseLoop o u args = .ok r →
        1 ≤ o.expires → o.expires ≤ 604800 →
        1 ≤ r.1.expires ∧ r.1.expires ≤ 604800 := by
  intro n
  induction n with
  | zero =>
    intro args hlen o u r hok h1 h2
    have hargs : args = [] := List.length_eq_zero.mp (Nat.le_zero.mp hlen)
    subst hargs
    have := finish_fst hok
    rw [this]
    exact ⟨h1, h2⟩
  | succ n ih =>
    intro args hlen o u r hok h1 h2
    cases args with
    | nil =>
      have := finish_fst hok
      rw [this]
      exact ⟨h1, h2⟩
    | cons arg rest =>
      unfold AWS4.parseLoop at hok
      split at hok
      · cases hok
      · split at hok
        · cases rest with
          | nil =>
            dsimp only [] at hok
            cases hv : AWS4.applyValueOpt o arg none with
            | error e => rw [hv] at hok; cases hok
            | ok o' =>
              rw [hv] at hok
              have hb := applyValueOpt_expires hv h1 h2
              have := finish_fst hok
              rw [this]
              exact hb
          | cons v rest' =>
            dsimp only [] at hok
            cases hv : AWS4.applyValueOpt o arg (some v) with
            | error e => rw [hv] at hok; cases hok
            | ok o' =>
              rw [hv] at hok
              have hb := applyValueOpt_expires hv h1 h2
              exact ih rest' (by simp at hlen; omega) o' u r hok hb.1 hb.2
        · cases hs : AWS4.applySimple o u arg with
          | error e => rw [hs] at hok; cases hok
          | ok p =>
            rw [hs] at hok
            obtain ⟨o', u'⟩ := p
            have he := applySimple_expires hs
            exact ih rest (by simp at hlen; omega) o' u' r hok (by omega) (by omega)

/-- Evaluation of the `--expires` case of the switch: the ground option-name
comparisons reduce definitionally. -/
theorem applyValueOpt_expires_eq (o : Options) (v : Option String) :
    AWS4.applyValueOpt o "--expires" v =
      (match jsParseInt v with
       | none => .error (.thrown "--expires must be a number between 1 and 604800 (7 days)")
       | some n =>
         if n < 1 || n > 604800 then
           .error (.thrown "--expires must be a number between 1 and 604800 (7 days)")
         else .ok { o with expires := n }) := rfl

/-- One-step evaluation of a parse whose first argument is `--expires`. -/
theorem parse_expires_cons (env : Env) (s : String) (rest : List String) :
    AWS4.parse env ("--expires" :: s :: rest) =
      (match AWS4.applyValueOpt (defaultOptions env) "--expires" (some s) with
       | .error e => .error e
       | .ok o' => AWS4.parseLoop o' none rest) := rfl

/-- Claim C1: parsing enforces the expiry bound.  (i) Any successful parse
leaves the expires option in [1, 604800] (the default 3600 included).
(ii) A `--expires` value whose `parseInt` is NaN or outside [1, 604800]
makes argument parsing fail, and the whole program then terminates with that
error before the URL parser, credential chain or signer are ever consulted,
emitting no signed output.  (iii) A `--expires` value whose `parseInt` is
some `n` in [1, 604800] parses successfully with the expires option equal to
`n`. -/
theorem expires_validation :
    (∀ (env : Env) (args : List String) (res : Options × String),
        AWS4.parse env args = .ok res →
        1 ≤ res.1.expires ∧ res.1.expires ≤ 604800)
  ∧ (∀ (env : Env) (s : String) (rest : List String),
        (jsParseInt (some s)).elim True (fun n => n < 1 ∨ 604800 < n) →
        (AWS4.parse env ("--expires" :: s :: rest)).isOk = false
        ∧ ∀ (uo : String → Option ParsedUrl) (chain : Except String Credentials)
            (signer : RequestOptions → Credentials → Except String SignedOptions),
            ((AWS4.main env ("--expires" :: s :: rest) uo chain signer).1).isOk = false)
  ∧ (∀ (env : Env) (s : String) (n : Int),
        jsParseInt (some s) = some n → 1 ≤ n → n ≤ 604800 →
        AWS4.parse env ["--expires", s, "https://example.com/"]
          = .ok ({ defaultOptions env with expires := n }, "https://example.com/")) := by
  refine ⟨?_, ?_, ?_⟩
  · intro env args res hok
    exact parseLoop_expires_inv args.length args le_rfl (defaultOptions env) none res hok
      (by norm_num [defaultOptions]) (by norm_num [defaultOptions])
  · intro env s rest hbad
    have herr : ∃ e, AWS4.parse env ("--expires" :: s :: rest) = .error e := by
      rw [parse_expires_cons, applyValueOpt_expires_eq]
      cases hj : jsParseInt (some s) with
      | none => exact ⟨_, rfl⟩
      | some n =>
        rw [hj] at hbad
        simp only [Option.elim] at hbad
        have : (n < 1 || n > 604800) = true := by
          rcases hbad with hbad | hbad <;> (simp; omega)
        simp only [this, if_true]
        exact ⟨_, rfl⟩
    obtain ⟨e, he⟩ := herr
    refine ⟨by rw [he]; rfl, ?_⟩
    intro uo chain signer
    simp only [AWS4.main, he]
    rfl
  · intro env s n hj h1 h2
    rw [parse_expires_cons, applyValueOpt_expires_eq, hj]
    have hb : (n < 1 || n > 604800) = false := by simp; omega
    simp only [hb, Bool.false_eq_true, if_false]
    rfl

/-- Claim C1 witness: `--expires 0` is rejected with no output, while
`--expires 3600` parses with the expires option 3600, which the bound
theorem confirms lies in [1, 604800]. -/
theorem expires_validation_witness :
    (AWS4.parse envAllNone ["--expires", "0", "https://example.com/"]).isOk = false
  ∧ ((AWS4.main envAllNone ["--expires", "0", "https://example.com/"]
        (fun _ => some examplePu) (.error "no providers") dummySigner).1).isOk = false
  ∧ AWS4.parse envAllNone ["--expires", "3600", "https://example.com/"]
      = .ok ({ defaultOptions envAllNone with expires := 3600 }, "https://example.com/")
  ∧ (1 ≤ ({ defaultOptions envAllNone with expires := 3600 } : Options).expires
      ∧ ({ defaultOptions envAllNone with expires := 3600 } : Options).expires ≤ 604800) :=
  ⟨(expires_validation.2.1 envAllNone "0" ["https://example.com/"]
      (by rw [show jsParseInt (some "0") = some 0 from by decide]; norm_num)).1,
   (expires_validation.2.1 envAllNone "0" ["https://example.com/"]
      (by rw [show jsParseInt (some "0") = some 0 from by decide]; norm_num)).2
     (fun _ => some examplePu) (.error "no providers") dummySigner,
   expires_validation.2.2 envAllNone "3600" 3600 (by decide) (by decide) (by decide),
   expires_validation.1 envAllNone ["--expires", "3600", "https://example.com/"]
     ({ defaultOptions envAllNone with expires := 3600 }, "https://example.com/")
     (expires_validation.2.2 envAllNone "3600" 3600 (by decide) (by decide) (by decide))⟩

/-- Value `undefined` is falsy. -/
theorem jsTruthy_none : jsTruthy none = false := rfl

/-- When the explicit credentials are not both truthy and the provider chain
fails, `resolveCredentials` surfaces the chain failure. -/
theorem resolveCredentials_chainError (opts : Options) (msg : String) (env : Env)
    (h : (jsTruthy opts.accessKeyId && jsTruthy opts.secretAccessKey) = false) :
    (AWS4.resolveCredentials opts (.error msg) env).1
      = .error (.exitErr ("Error: Failed to resolve AWS credentials. Details: " ++ msg)) := by
  unfold AWS4.resolveCredentials
  simp [h]

/-- Claim C3: when the access key or secret key is empty or missing from the
options (command line and environment defaults) and every provider fails
(the chain errors), the current revision pipeline terminates with an error
and emits no signed output; the credential gate in the old revision `sign`
likewise exits before invoking the signer when the environment variables are
also missing or empty. -/
theorem missing_credentials_abort :
    (∀ (purl : Option ParsedUrl) (opts : Options) (argv : List String) (msg : String)
        (signer : RequestOptions → Credentials → Except String SignedOptions) (env : Env),
        (jsTruthy opts.accessKeyId && jsTruthy opts.secretAccessKey) = false →
        ((AWS4.run purl opts argv (.error msg) signer env).1).isOk = false)
  ∧ (∀ (opts : Options) (env : Env),
        (jsTruthy opts.accessKeyId && jsTruthy opts.secretAccessKey) = false →
        (jsTruthy env.awsAccessKeyId && jsTruthy env.awsSecretAccessKey) = false →
        (OldRev.signGate opts env).isOk = false) := by
  constructor
  · intro purl opts argv msg signer env hc
    cases purl with
    | none => rfl
    | some pu =>
      rcases hr : (AWS4.resolveCredentials opts (Except.error msg) env).1 with e | creds
      · simp only [AWS4.run]
        rw [hr]
        rfl
      · rw [resolveCredentials_chainError opts msg env hc] at hr
        cases hr
  · intro opts env hc henv
    cases ha : jsTruthy opts.accessKeyId <;>
      cases hb : jsTruthy opts.secretAccessKey <;>
        cases hea : jsTruthy env.awsAccessKeyId <;>
          cases heb : jsTruthy env.awsSecretAccessKey <;>
            simp_all [OldRev.signGate, jsTruthy_none, Except.isOk, Except.toBool]

/-- Claim C3 witness: with no flags, no environment credentials and a failing
provider chain, both revisions refuse to sign. -/
theorem missing_credentials_abort_witness :
    (jsTruthy (defaultOptions envAllNone).accessKeyId
        && jsTruthy (defaultOptions envAllNone).secretAccessKey) = false
  ∧ ((AWS4.run (some examplePu) (defaultOptions envAllNone) [] (.error "no providers")
        dummySigner envAllNone).1).isOk = false
  ∧ (OldRev.signGate (defaultOptions envAllNone) envAllNone).isOk = false :=
  ⟨by decide,
   missing_credentials_abort.1 (some examplePu) (defaultOptions envAllNone) [] "no providers"
     dummySigner envAllNone (by decide),
   missing_credentials_abort.2 (defaultOptions envAllNone) envAllNone (by decide) (by decide)⟩
